import Mathlib

/-
Verification development for the RDC capture replay / state-reconstruction
engine (rd_mcp/rdc_analyzer_cmd.py): a shallow embedding of the event
trackers (render state, sampler, framebuffer), the draw-call extractor,
the pass segmenter and the pass dependency analyzer, together with proofs
of the documented invariants.

An XML "chunk" (one recorded API call) is modelled as a name plus keyed
attribute lists, one list per element type (enum/int/bool/byte/ResourceId/
float/string).  An enum attribute's value models
`elem.get("string", elem.text or "")`; an int or float attribute whose
text does not parse carries `none` (the code catches the conversion error
and falls back); an absent attribute is simply not in the list.
Python dicts are modelled as insertion-ordered association lists where an
update replaces in place and a fresh key is appended.  Floating point
durations are modelled over `ℚ` (exact arithmetic).
-/

/-! ## String helpers (literal regex prefix match, substring containment) -/

/-- Bool test that `p` is a leading segment of `s` (char lists). -/
def leadsList : List Char → List Char → Bool
  | _, [] => true
  | [], _ :: _ => false
  | a :: as, b :: bs => a == b && leadsList as bs

/-- Models `re.match(pat, s)` for a literal pattern: `s` starts with `pat`. -/
def beginsWith (s p : String) : Bool := leadsList s.data p.data

/-- Models Python `sub in s` substring containment. -/
def strContains (s sub : String) : Bool :=
  (List.range (s.data.length + 1)).any (fun i => leadsList (s.data.drop i) sub.data)

/-- Lower-case one ASCII character, models `str.lower` per character. -/
def lowerChar (c : Char) : Char :=
  if 'A' ≤ c ∧ c ≤ 'Z' then Char.ofNat (c.toNat + 32) else c

/-- Models Python `s.lower()` for the ASCII strings that occur here. -/
def lowerStr (s : String) : String := ⟨s.data.map lowerChar⟩

/-- Numeric value of a list of decimal digit characters. -/
def digitsVal (l : List Char) : Nat :=
  l.foldl (fun a c => a * 10 + (c.toNat - 48)) 0

/-- Models `re.search(r"(\d+)$", s)`: the maximal trailing run of digits,
if nonempty. -/
def trailingNat (s : String) : Option Nat :=
  let ds := s.data.reverse.takeWhile Char.isDigit
  if ds.isEmpty then none else some (digitsVal ds.reverse)

/-! ## Association lists modelling Python dicts -/

/-- First-match lookup in an association list. -/
def alookup {κ : Type} [DecidableEq κ] {β : Type} (k : κ) :
    List (κ × β) → Option β
  | [] => none
  | (a, b) :: es => if a = k then some b else alookup k es

/-- Dict assignment: replace in place when the key exists, append otherwise
(preserving Python's insertion order). -/
def alistSet {κ : Type} [DecidableEq κ] {β : Type} (m : List (κ × β))
    (k : κ) (v : β) : List (κ × β) :=
  if (alookup k m).isSome then
    m.map (fun p => if p.1 = k then (k, v) else p)
  else
    m ++ [(k, v)]

/-! ## Events ("chunks") -/

/-- One recorded API call: the chunk name, its keyed attribute elements by
element type, and the chunk-level `id` / `duration` XML attributes. -/
structure Chunk where
  name : String
  enums : List (String × String) := []
  ints : List (String × Option Int) := []
  bools : List (String × String) := []
  bytes : List (String × String) := []
  resourceIds : List (String × String) := []
  floats : List (String × Option ℚ) := []
  strings : List (String × String) := []
  eventId : Int := 0
  duration : Int := 0
deriving DecidableEq

/-- A chunk with the given name and no attributes at all. -/
def emptyChunk (n : String) : Chunk :=
  { name := n }

/-- Models `_get_enum_value`: the enum element's display string, `""` when
the element is absent. -/
def get_enum_value (c : Chunk) (n : String) : String :=
  (alookup n c.enums).getD ""

/-- Models `_get_int_value`: the parsed int, `0` when the element is absent
or its text does not parse. -/
def get_int_value (c : Chunk) (n : String) : Int :=
  match alookup n c.ints with
  | some (some v) => v
  | _ => 0

/-- Models `_get_bool_value`: a `bool` element's text against
("true","1","gl_true") after lowering, else a `byte` element's text against
("0","false","GL_FALSE"), else `false`. -/
def get_bool_value (c : Chunk) (n : String) : Bool :=
  match alookup n c.bools with
  | some t => ["true", "1", "gl_true"].contains (lowerStr t)
  | none =>
    match alookup n c.bytes with
    | some t => !(["0", "false", "GL_FALSE"].contains t)
    | none => false

/-- Models `_get_resource_id`: the ResourceId element's text, `""` when
absent. -/
def get_resource_id (c : Chunk) (n : String) : String :=
  (alookup n c.resourceIds).getD ""

/-! ## Render state tracker -/

/-- Mutable fields of `RenderStateTracker`. -/
structure RenderStateTracker where
  blend_enabled : Bool
  src_rgb : String
  dst_rgb : String
  src_alpha : String
  dst_alpha : String
  equation_rgb : String
  equation_alpha : String
  depth_test_enabled : Bool
  depth_write_enabled : Bool
  depth_func : String
  stencil_enabled : Bool
  stencil_func : String
  stencil_ref : Int
  stencil_mask : Int
  stencil_fail : String
  stencil_depth_fail : String
  stencil_pass : String
  cull_enabled : Bool
  cull_mode : String
  front_face : String
  scissor_enabled : Bool
  scissor_x : Int
  scissor_y : Int
  scissor_width : Int
  scissor_height : Int
  polygon_mode : String
  color_mask : String
deriving DecidableEq

/-- `RenderStateTracker.reset`: the default OpenGL state. -/
def RenderStateTracker.reset : RenderStateTracker :=
  { blend_enabled := false
    src_rgb := "ONE", dst_rgb := "ZERO", src_alpha := "ONE", dst_alpha := "ZERO"
    equation_rgb := "FUNC_ADD", equation_alpha := "FUNC_ADD"
    depth_test_enabled := false, depth_write_enabled := true, depth_func := "LESS"
    stencil_enabled := false, stencil_func := "ALWAYS", stencil_ref := 0
    stencil_mask := 255
    stencil_fail := "KEEP", stencil_depth_fail := "KEEP", stencil_pass := "KEEP"
    cull_enabled := false, cull_mode := "BACK", front_face := "CCW"
    scissor_enabled := false, scissor_x := 0, scissor_y := 0
    scissor_width := 0, scissor_height := 0
    polygon_mode := "FILL", color_mask := "RGBA" }

/-- `BLEND_FUNCS` mapping. -/
def BLEND_FUNCS : List (String × String) :=
  [("GL_ZERO", "ZERO"), ("GL_ONE", "ONE"),
   ("GL_SRC_COLOR", "SRC_COLOR"), ("GL_ONE_MINUS_SRC_COLOR", "ONE_MINUS_SRC_COLOR"),
   ("GL_DST_COLOR", "DST_COLOR"), ("GL_ONE_MINUS_DST_COLOR", "ONE_MINUS_DST_COLOR"),
   ("GL_SRC_ALPHA", "SRC_ALPHA"), ("GL_ONE_MINUS_SRC_ALPHA", "ONE_MINUS_SRC_ALPHA"),
   ("GL_DST_ALPHA", "DST_ALPHA"), ("GL_ONE_MINUS_DST_ALPHA", "ONE_MINUS_DST_ALPHA"),
   ("GL_CONSTANT_COLOR", "CONSTANT_COLOR"),
   ("GL_ONE_MINUS_CONSTANT_COLOR", "ONE_MINUS_CONSTANT_COLOR"),
   ("GL_CONSTANT_ALPHA", "CONSTANT_ALPHA"),
   ("GL_ONE_MINUS_CONSTANT_ALPHA", "ONE_MINUS_CONSTANT_ALPHA"),
   ("GL_SRC_ALPHA_SATURATE", "SRC_ALPHA_SATURATE")]

/-- `DEPTH_FUNCS` mapping. -/
def DEPTH_FUNCS : List (String × String) :=
  [("GL_NEVER", "NEVER"), ("GL_LESS", "LESS"), ("GL_EQUAL", "EQUAL"),
   ("GL_LEQUAL", "LEQUAL"), ("GL_GREATER", "GREATER"), ("GL_NOTEQUAL", "NOTEQUAL"),
   ("GL_GEQUAL", "GEQUAL"), ("GL_ALWAYS", "ALWAYS")]

/-- `CULL_MODES` mapping. -/
def CULL_MODES : List (String × String) :=
  [("GL_FRONT", "FRONT"), ("GL_BACK", "BACK"), ("GL_FRONT_AND_BACK", "FRONT_AND_BACK")]

/-- `_enable_capability`: substring dispatch on the capability name. -/
def RenderStateTracker.enable_capability (s : RenderStateTracker) (cap : String)
    (enabled : Bool) : RenderStateTracker :=
  if strContains cap "BLEND" then { s with blend_enabled := enabled }
  else if strContains cap "DEPTH_TEST" then { s with depth_test_enabled := enabled }
  else if strContains cap "STENCIL_TEST" then { s with stencil_enabled := enabled }
  else if strContains cap "CULL_FACE" then { s with cull_enabled := enabled }
  else if strContains cap "SCISSOR_TEST" then { s with scissor_enabled := enabled }
  else s

/-- `_parse_blend_equation`. -/
def parse_blend_equation (eq : String) : String :=
  if strContains eq "ADD" then "FUNC_ADD"
  else if strContains eq "SUBTRACT" then
    (if strContains eq "REVERSE" then "FUNC_REVERSE_SUBTRACT" else "FUNC_SUBTRACT")
  else if strContains eq "MIN" then "MIN"
  else if strContains eq "MAX" then "MAX"
  else "FUNC_ADD"

/-- `_parse_stencil_op`. -/
def parse_stencil_op (op : String) : String :=
  (alookup op
    [("GL_KEEP", "KEEP"), ("GL_ZERO", "ZERO"), ("GL_REPLACE", "REPLACE"),
     ("GL_INCR", "INCR"), ("GL_INCR_WRAP", "INCR_WRAP"),
     ("GL_DECR", "DECR"), ("GL_DECR_WRAP", "DECR_WRAP"),
     ("GL_INVERT", "INVERT")]).getD op

/-- `RenderStateTracker.process_chunk`: dispatch on the chunk name and
update the controlled state fields. -/
def RenderStateTracker.process_chunk (s : RenderStateTracker) (c : Chunk) :
    RenderStateTracker :=
  if c.name = "glEnable" then
    s.enable_capability (get_enum_value c "cap") true
  else if c.name = "glDisable" then
    s.enable_capability (get_enum_value c "cap") false
  else if c.name = "glBlendFunc" then
    let sfactor := get_enum_value c "sfactor"
    let dfactor := get_enum_value c "dfactor"
    let sv := (alookup sfactor BLEND_FUNCS).getD sfactor
    let dv := (alookup dfactor BLEND_FUNCS).getD dfactor
    { s with src_rgb := sv, src_alpha := sv, dst_rgb := dv, dst_alpha := dv }
  else if c.name = "glBlendFuncSeparate" then
    { s with
      src_rgb := (alookup (get_enum_value c "srcRGB") BLEND_FUNCS).getD "ONE"
      dst_rgb := (alookup (get_enum_value c "dstRGB") BLEND_FUNCS).getD "ZERO"
      src_alpha := (alookup (get_enum_value c "srcAlpha") BLEND_FUNCS).getD "ONE"
      dst_alpha := (alookup (get_enum_value c "dstAlpha") BLEND_FUNCS).getD "ZERO" }
  else if c.name = "glBlendEquation" then
    let eq := parse_blend_equation (get_enum_value c "mode")
    { s with equation_rgb := eq, equation_alpha := eq }
  else if c.name = "glBlendEquationSeparate" then
    { s with
      equation_rgb := parse_blend_equation (get_enum_value c "modeRGB")
      equation_alpha := parse_blend_equation (get_enum_value c "modeAlpha") }
  else if c.name = "glDepthFunc" then
    let f := get_enum_value c "func"
    { s with depth_func := (alookup f DEPTH_FUNCS).getD f }
  else if c.name = "glDepthMask" then
    { s with depth_write_enabled := get_bool_value c "flag" }
  else if c.name = "glStencilFunc" then
    { s with
      stencil_func := (alookup (get_enum_value c "func") DEPTH_FUNCS).getD "ALWAYS"
      stencil_ref := get_int_value c "ref"
      stencil_mask := get_int_value c "mask" }
  else if c.name = "glStencilOp" then
    { s with
      stencil_fail := parse_stencil_op (get_enum_value c "fail")
      stencil_depth_fail := parse_stencil_op (get_enum_value c "zfail")
      stencil_pass := parse_stencil_op (get_enum_value c "zpass") }
  else if c.name = "glCullFace" then
    let m := get_enum_value c "mode"
    { s with cull_mode := (alookup m CULL_MODES).getD m }
  else if c.name = "glFrontFace" then
    let m := get_enum_value c "mode"
    { s with front_face :=
        if strContains m "CW" && !(strContains m "CCW") then "CW" else "CCW" }
  else if c.name = "glScissor" then
    { s with scissor_x := get_int_value c "x", scissor_y := get_int_value c "y"
             scissor_width := get_int_value c "width"
             scissor_height := get_int_value c "height" }
  else if c.name = "glColorMask" then
    let m := (if get_bool_value c "red" then "R" else "")
          ++ (if get_bool_value c "green" then "G" else "")
          ++ (if get_bool_value c "blue" then "B" else "")
          ++ (if get_bool_value c "alpha" then "A" else "")
    { s with color_mask := if m = "" then "NONE" else m }
  else if c.name = "glPolygonMode" then
    let m := get_enum_value c "mode"
    { s with polygon_mode :=
        if strContains m "LINE" then "LINE"
        else if strContains m "POINT" then "POINT"
        else "FILL" }
  else s

/-! ## Pipeline-state snapshot (the `DrawCallState` dataclasses) -/

/-- `BlendState` snapshot component. -/
structure BlendState where
  enabled : Bool := false
  src_rgb : String := "ONE"
  dst_rgb : String := "ZERO"
  src_alpha : String := "ONE"
  dst_alpha : String := "ZERO"
  equation_rgb : String := "FUNC_ADD"
  equation_alpha : String := "FUNC_ADD"
deriving DecidableEq

/-- `DepthState` snapshot component. -/
structure DepthState where
  test_enabled : Bool := false
  write_enabled : Bool := true
  func : String := "LESS"
deriving DecidableEq

/-- `StencilState` snapshot component. -/
structure StencilState where
  enabled : Bool := false
  func : String := "ALWAYS"
  ref : Int := 0
  mask : Int := 255
  fail_op : String := "KEEP"
  depth_fail_op : String := "KEEP"
  pass_op : String := "KEEP"
deriving DecidableEq

/-- `CullState` snapshot component. -/
structure CullState where
  enabled : Bool := false
  mode : String := "BACK"
  front_face : String := "CCW"
deriving DecidableEq

/-- `ScissorState` snapshot component. -/
structure ScissorState where
  enabled : Bool := false
  x : Int := 0
  y : Int := 0
  width : Int := 0
  height : Int := 0
deriving DecidableEq

/-- `DrawCallState`: the full immutable pipeline-state snapshot. -/
structure DrawCallState where
  blend : BlendState := {}
  depth : DepthState := {}
  stencil : StencilState := {}
  cull : CullState := {}
  scissor : ScissorState := {}
  polygon_mode : String := "FILL"
  color_mask : String := "RGBA"
deriving DecidableEq

/-- `RenderStateTracker.get_current_state`: build a snapshot from the
current tracker fields. -/
def RenderStateTracker.get_current_state (s : RenderStateTracker) : DrawCallState :=
  { blend :=
      { enabled := s.blend_enabled
        src_rgb := s.src_rgb, dst_rgb := s.dst_rgb
        src_alpha := s.src_alpha, dst_alpha := s.dst_alpha
        equation_rgb := s.equation_rgb, equation_alpha := s.equation_alpha }
    depth :=
      { test_enabled := s.depth_test_enabled
        write_enabled := s.depth_write_enabled
        func := s.depth_func }
    stencil :=
      { enabled := s.stencil_enabled, func := s.stencil_func
        ref := s.stencil_ref, mask := s.stencil_mask
        fail_op := s.stencil_fail, depth_fail_op := s.stencil_depth_fail
        pass_op := s.stencil_pass }
    cull :=
      { enabled := s.cull_enabled, mode := s.cull_mode, front_face := s.front_face }
    scissor :=
      { enabled := s.scissor_enabled, x := s.scissor_x, y := s.scissor_y
        width := s.scissor_width, height := s.scissor_height }
    polygon_mode := s.polygon_mode
    color_mask := s.color_mask }

/-- Value equality of two snapshots: every field is equal. -/
def dcsValueEq (a b : DrawCallState) : Prop :=
  a.blend = b.blend ∧ a.depth = b.depth ∧ a.stencil = b.stencil ∧
  a.cull = b.cull ∧ a.scissor = b.scissor ∧
  a.polygon_mode = b.polygon_mode ∧ a.color_mask = b.color_mask

/-- Copy the fields controlled by event name `n` from `src` onto `t`,
leaving the rest of `t`.  Each event kind's controlled-field set mirrors
the assignments in `RenderStateTracker.process_chunk`. -/
def restoreControlledFields (n : String) (src t : RenderStateTracker) :
    RenderStateTracker :=
  if n = "glEnable" ∨ n = "glDisable" then
    { t with blend_enabled := src.blend_enabled
             depth_test_enabled := src.depth_test_enabled
             stencil_enabled := src.stencil_enabled
             cull_enabled := src.cull_enabled
             scissor_enabled := src.scissor_enabled }
  else if n = "glBlendFunc" ∨ n = "glBlendFuncSeparate" then
    { t with src_rgb := src.src_rgb, dst_rgb := src.dst_rgb
             src_alpha := src.src_alpha, dst_alpha := src.dst_alpha }
  else if n = "glBlendEquation" ∨ n = "glBlendEquationSeparate" then
    { t with equation_rgb := src.equation_rgb, equation_alpha := src.equation_alpha }
  else if n = "glDepthFunc" then { t with depth_func := src.depth_func }
  else if n = "glDepthMask" then
    { t with depth_write_enabled := src.depth_write_enabled }
  else if n = "glStencilFunc" then
    { t with stencil_func := src.stencil_func, stencil_ref := src.stencil_ref
             stencil_mask := src.stencil_mask }
  else if n = "glStencilOp" then
    { t with stencil_fail := src.stencil_fail
             stencil_depth_fail := src.stencil_depth_fail
             stencil_pass := src.stencil_pass }
  else if n = "glCullFace" then { t with cull_mode := src.cull_mode }
  else if n = "glFrontFace" then { t with front_face := src.front_face }
  else if n = "glScissor" then
    { t with scissor_x := src.scissor_x, scissor_y := src.scissor_y
             scissor_width := src.scissor_width, scissor_height := src.scissor_height }
  else if n = "glColorMask" then { t with color_mask := src.color_mask }
  else if n = "glPolygonMode" then { t with polygon_mode := src.polygon_mode }
  else t

/-! ## Sampler tracker -/

/-- `SamplerInfo` dataclass with its defaults. -/
structure SamplerInfo where
  sampler_id : String
  texture_id : String := ""
  texture_name : String := ""
  min_filter : String := "LINEAR"
  mag_filter : String := "LINEAR"
  wrap_s : String := "REPEAT"
  wrap_t : String := "REPEAT"
  wrap_r : String := "REPEAT"
  anisotropy : ℚ := 1
  min_lod : ℚ := -1000
  max_lod : ℚ := 1000
  lod_bias : ℚ := 0
  compare_mode : String := "NONE"
  compare_func : String := "LEQUAL"
deriving DecidableEq

/-- `FILTER_MODES` mapping. -/
def FILTER_MODES : List (String × String) :=
  [("GL_NEAREST", "NEAREST"), ("GL_LINEAR", "LINEAR"),
   ("GL_NEAREST_MIPMAP_NEAREST", "NEAREST_MIPMAP_NEAREST"),
   ("GL_LINEAR_MIPMAP_NEAREST", "LINEAR_MIPMAP_NEAREST"),
   ("GL_NEAREST_MIPMAP_LINEAR", "NEAREST_MIPMAP_LINEAR"),
   ("GL_LINEAR_MIPMAP_LINEAR", "LINEAR_MIPMAP_LINEAR")]

/-- `WRAP_MODES` mapping. -/
def WRAP_MODES : List (String × String) :=
  [("GL_REPEAT", "REPEAT"), ("GL_CLAMP_TO_EDGE", "CLAMP_TO_EDGE"),
   ("GL_CLAMP_TO_BORDER", "CLAMP_TO_BORDER"),
   ("GL_MIRRORED_REPEAT", "MIRRORED_REPEAT"),
   ("GL_MIRROR_CLAMP_TO_EDGE", "MIRROR_CLAMP_TO_EDGE")]

/-- Mutable fields of `SamplerTracker`: the descriptor registry (insertion
ordered), the active texture unit and the per-unit bound textures. -/
structure SamplerTracker where
  samplers : List (String × SamplerInfo)
  current_texture_unit : Nat
  bound_textures : List (Nat × String)
deriving DecidableEq

/-- Fresh `SamplerTracker`. -/
def SamplerTracker.init : SamplerTracker :=
  { samplers := [], current_texture_unit := 0, bound_textures := [] }

/-- `SamplerTracker._process_tex_param`: resolve the target key (explicit
sampler id for glSamplerParameter*, else the bound texture of the active
unit with a `tex_unit_<n>` fallback), get-or-create the descriptor and
apply the one field named by `pname`. -/
def SamplerTracker.process_tex_param (st : SamplerTracker) (c : Chunk) :
    SamplerTracker :=
  let pname := get_enum_value c "pname"
  let sampler_id :=
    if strContains c.name "Sampler" then get_resource_id c "sampler"
    else
      match alookup st.current_texture_unit st.bound_textures with
      | some t => t
      | none => "tex_unit_" ++ toString st.current_texture_unit
  if sampler_id = "" then st
  else
    let cur := (alookup sampler_id st.samplers).getD { sampler_id := sampler_id }
    let param_value := get_enum_value c "param"
    let cur' :=
      if strContains pname "MIN_FILTER" then
        { cur with min_filter := (alookup param_value FILTER_MODES).getD param_value }
      else if strContains pname "MAG_FILTER" then
        { cur with mag_filter := (alookup param_value FILTER_MODES).getD param_value }
      else if strContains pname "WRAP_S" then
        { cur with wrap_s := (alookup param_value WRAP_MODES).getD param_value }
      else if strContains pname "WRAP_T" then
        { cur with wrap_t := (alookup param_value WRAP_MODES).getD param_value }
      else if strContains pname "WRAP_R" then
        { cur with wrap_r := (alookup param_value WRAP_MODES).getD param_value }
      else if strContains pname "MAX_ANISOTROPY" then
        match alookup "param" c.floats with
        | some (some v) => { cur with anisotropy := v }
        | _ => cur
      else cur
    { st with samplers := alistSet st.samplers sampler_id cur' }

/-- `SamplerTracker.process_chunk`. -/
def SamplerTracker.process_chunk (st : SamplerTracker) (c : Chunk) :
    SamplerTracker :=
  if c.name = "glActiveTexture" then
    let unit := get_enum_value c "texture"
    if unit ≠ "" then
      match trailingNat unit with
      | some n => { st with current_texture_unit := n }
      | none =>
        if strContains unit "TEXTURE0" then { st with current_texture_unit := 0 }
        else st
    else st
  else if c.name = "glBindTexture" then
    let tex := get_resource_id c "texture"
    if tex ≠ "" then
      { st with bound_textures := alistSet st.bound_textures st.current_texture_unit tex }
    else st
  else if c.name = "glTexParameteri" ∨ c.name = "glTexParameterf" ∨
          c.name = "glSamplerParameteri" ∨ c.name = "glSamplerParameterf" then
    st.process_tex_param c
  else st

/-! ## Framebuffer tracker -/

/-- `RenderTargetInfo` dataclass. -/
structure RenderTargetInfo where
  attachment : String
  texture_id : String
  texture_name : String := ""
  width : Int := 0
  height : Int := 0
  format : String := ""
  level : Int := 0
  layer : Int := 0
deriving DecidableEq

/-- `ClearInfo` dataclass. -/
structure ClearInfo where
  clear_color : Bool := false
  clear_depth : Bool := false
  clear_stencil : Bool := false
  color_value : ℚ × ℚ × ℚ × ℚ := (0, 0, 0, 1)
  depth_value : ℚ := 1
  stencil_value : Int := 0
deriving DecidableEq

/-- `FramebufferInfo` dataclass. -/
structure FramebufferInfo where
  fbo_id : String
  name : String := ""
  width : Int := 0
  height : Int := 0
  color_attachments : List RenderTargetInfo := []
  depth_attachment : Option RenderTargetInfo := none
  stencil_attachment : Option RenderTargetInfo := none
  depth_stencil_attachment : Option RenderTargetInfo := none
  is_default : Bool := false
  draw_buffers : List String := []
  clear_ops : List ClearInfo := []
deriving DecidableEq

/-- Mutable fields of `FramebufferTracker` (the unused `_pending_clear` is
always `None` in the source and is omitted). -/
structure FramebufferTracker where
  framebuffers : List (String × FramebufferInfo)
  current_fbo : String
deriving DecidableEq

/-- Fresh `FramebufferTracker` with the pre-registered default FBO `"0"`. -/
def FramebufferTracker.init : FramebufferTracker :=
  { framebuffers :=
      [("0", { fbo_id := "0", name := "Default Framebuffer", is_default := true })]
    current_fbo := "0" }

/-- The bind target id: the `framebuffer` ResourceId, or `"0"` when absent
or empty. -/
def bindFbResolve (c : Chunk) : String :=
  let fid := get_resource_id c "framebuffer"
  if fid = "" then "0" else fid

/-- Lazy registration performed by `_process_bind_framebuffer`. -/
def bindFbRegister (fb : FramebufferTracker) (c : Chunk) :
    List (String × FramebufferInfo) :=
  let fid := bindFbResolve c
  if (alookup fid fb.framebuffers).isSome then fb.framebuffers
  else fb.framebuffers ++
    [(fid, { fbo_id := fid, name := "FBO_" ++ fid, is_default := (fid = "0") })]

/-- `FramebufferTracker._process_bind_framebuffer`. -/
def FramebufferTracker.process_bind_framebuffer (fb : FramebufferTracker)
    (c : Chunk) : FramebufferTracker :=
  { fb with current_fbo := bindFbResolve c, framebuffers := bindFbRegister fb c }

/-- Attachment routing shared by the texture and renderbuffer variants. -/
def attachRoute (fbo : FramebufferInfo) (attachment : String)
    (rt : RenderTargetInfo) : FramebufferInfo :=
  if strContains attachment "COLOR" then
    { fbo with color_attachments := fbo.color_attachments ++ [rt] }
  else if strContains attachment "DEPTH_STENCIL" then
    { fbo with depth_stencil_attachment := some rt }
  else if strContains attachment "DEPTH" then
    { fbo with depth_attachment := some rt }
  else if strContains attachment "STENCIL" then
    { fbo with stencil_attachment := some rt }
  else fbo

/-- Registry update of `_process_framebuffer_texture`. -/
def fbTextureUpdate (fb : FramebufferTracker) (c : Chunk) :
    List (String × FramebufferInfo) :=
  let attachment := get_enum_value c "attachment"
  let texture_id := get_resource_id c "texture"
  let level := get_int_value c "level"
  if attachment = "" ∨ texture_id = "" then fb.framebuffers
  else
    match alookup fb.current_fbo fb.framebuffers with
    | none => fb.framebuffers
    | some fbo =>
      let rt : RenderTargetInfo :=
        { attachment := attachment, texture_id := texture_id, level := level }
      alistSet fb.framebuffers fb.current_fbo (attachRoute fbo attachment rt)

/-- `FramebufferTracker._process_framebuffer_texture` (registry-only). -/
def FramebufferTracker.process_framebuffer_texture (fb : FramebufferTracker)
    (c : Chunk) : FramebufferTracker :=
  { fb with framebuffers := fbTextureUpdate fb c }

/-- Registry update of `_process_framebuffer_renderbuffer`. -/
def fbRenderbufferUpdate (fb : FramebufferTracker) (c : Chunk) :
    List (String × FramebufferInfo) :=
  let attachment := get_enum_value c "attachment"
  let renderbuffer_id := get_resource_id c "renderbuffer"
  if attachment = "" ∨ renderbuffer_id = "" then fb.framebuffers
  else
    match alookup fb.current_fbo fb.framebuffers with
    | none => fb.framebuffers
    | some fbo =>
      let rt : RenderTargetInfo :=
        { attachment := attachment, texture_id := "RB_" ++ renderbuffer_id }
      alistSet fb.framebuffers fb.current_fbo (attachRoute fbo attachment rt)

/-- `FramebufferTracker._process_framebuffer_renderbuffer` (registry-only). -/
def FramebufferTracker.process_framebuffer_renderbuffer (fb : FramebufferTracker)
    (c : Chunk) : FramebufferTracker :=
  { fb with framebuffers := fbRenderbufferUpdate fb c }

/-- Registry update of `_process_clear`. -/
def fbClearUpdate (fb : FramebufferTracker) (c : Chunk) :
    List (String × FramebufferInfo) :=
  let mask := get_enum_value c "mask"
  let clear_info : ClearInfo :=
    { clear_color := strContains mask "COLOR"
      clear_depth := strContains mask "DEPTH"
      clear_stencil := strContains mask "STENCIL" }
  match alookup fb.current_fbo fb.framebuffers with
  | none => fb.framebuffers
  | some fbo =>
    alistSet fb.framebuffers fb.current_fbo
      { fbo with clear_ops := fbo.clear_ops ++ [clear_info] }

/-- `FramebufferTracker._process_clear` (registry-only). -/
def FramebufferTracker.process_clear (fb : FramebufferTracker) (c : Chunk) :
    FramebufferTracker :=
  { fb with framebuffers := fbClearUpdate fb c }

/-- Registry update of `_process_draw_buffers`. -/
def fbDrawBuffersUpdate (fb : FramebufferTracker) (c : Chunk) :
    List (String × FramebufferInfo) :=
  match alookup fb.current_fbo fb.framebuffers with
  | none => fb.framebuffers
  | some fbo =>
    let buffers := (c.enums.filter (fun p => beginsWith p.1 "bufs")).map (fun p => p.2)
    if buffers ≠ [] then
      alistSet fb.framebuffers fb.current_fbo { fbo with draw_buffers := buffers }
    else fb.framebuffers

/-- `FramebufferTracker._process_draw_buffers` (registry-only). -/
def FramebufferTracker.process_draw_buffers (fb : FramebufferTracker) (c : Chunk) :
    FramebufferTracker :=
  { fb with framebuffers := fbDrawBuffersUpdate fb c }

/-- `FramebufferTracker.process_chunk`. -/
def FramebufferTracker.process_chunk (fb : FramebufferTracker) (c : Chunk) :
    FramebufferTracker :=
  if c.name = "glBindFramebuffer" then fb.process_bind_framebuffer c
  else if c.name = "glFramebufferTexture2D" ∨ c.name = "glFramebufferTexture" then
    fb.process_framebuffer_texture c
  else if c.name = "glFramebufferRenderbuffer" then
    fb.process_framebuffer_renderbuffer c
  else if c.name = "glClear" then fb.process_clear c
  else if c.name = "glClearColor" then fb
  else if c.name = "glClearDepthf" ∨ c.name = "glClearDepth" then fb
  else if c.name = "glDrawBuffers" then fb.process_draw_buffers c
  else fb

/-! ## Draw-call extractor -/

/-- `DrawCallInfo` dataclass (state is the captured snapshot). -/
structure DrawCallInfo where
  draw_id : Nat
  event_id : Int := 0
  name : String
  duration_ns : Int := 0
  vertex_count : Int := 0
  index_count : Int := 0
  instance_count : Int := 1
  marker : String := ""
  state : Option DrawCallState := none
  bound_textures : List String := []
  shader_program : String := ""
  fbo_id : String := ""
deriving DecidableEq

/-- `DrawCallInfo.gpu_duration_ms` over exact rationals. -/
def DrawCallInfo.gpu_duration_ms (d : DrawCallInfo) : ℚ :=
  (d.duration_ns : ℚ) / 1000000

/-- The draw-call patterns of `_extract_draws_with_state`. -/
def drawPatterns : List String :=
  ["glDrawArrays", "glDrawElements", "glDrawElementsInstanced",
   "glDrawArraysInstanced", "glDrawRangeElements", "glMultiDrawArrays",
   "glMultiDrawElements"]

/-- `any(re.match(pattern, name) for pattern in draw_patterns)`. -/
def isDraw (n : String) : Bool := drawPatterns.any (fun p => beginsWith n p)

/-- The loop state of `_extract_draws_with_state` besides the records:
the three trackers plus the extractor's own program / texture bookkeeping. -/
structure ExtractState where
  rs : RenderStateTracker
  samp : SamplerTracker
  fb : FramebufferTracker
  current_program : String
  bound_textures : List String
  current_texture_unit : Nat
deriving DecidableEq

/-- Fresh trackers, as built at the start of `_parse_xml`. -/
def ExtractState.init : ExtractState :=
  { rs := RenderStateTracker.reset, samp := SamplerTracker.init
    fb := FramebufferTracker.init, current_program := ""
    bound_textures := [], current_texture_unit := 0 }

/-- Pad the per-unit list with `""` up to index `i` and set slot `i`. -/
def setPad (l : List String) (i : Nat) (v : String) : List String :=
  (l ++ List.replicate (i + 1 - l.length) "").set i v

/-- The extractor's own `glUseProgram` / `glActiveTexture` / `glBindTexture`
bookkeeping (program, per-unit bound textures, active unit). -/
def extractorUpdates (prog : String) (bt : List String) (unit : Nat)
    (c : Chunk) : String × List String × Nat :=
  if c.name = "glUseProgram" then
    match alookup "program" c.resourceIds with
    | some t => (t, bt, unit)
    | none => (prog, bt, unit)
  else if c.name = "glActiveTexture" then
    match alookup "texture" c.enums with
    | some us =>
      match trailingNat us with
      | some n => (prog, bt, n)
      | none => (prog, bt, unit)
    | none => (prog, bt, unit)
  else if c.name = "glBindTexture" then
    match alookup "texture" c.resourceIds with
    | some t => if t = "" then (prog, bt, unit) else (prog, setPad bt unit t, unit)
    | none => (prog, bt, unit)
  else (prog, bt, unit)

/-- Feed one chunk to every tracker and the extractor bookkeeping
(the per-event updates of `_extract_draws_with_state`, before the
draw-pattern check). -/
def stepTrackers (st : ExtractState) (c : Chunk) : ExtractState :=
  { rs := st.rs.process_chunk c
    samp := st.samp.process_chunk c
    fb := st.fb.process_chunk c
    current_program :=
      (extractorUpdates st.current_program st.bound_textures st.current_texture_unit c).1
    bound_textures :=
      (extractorUpdates st.current_program st.bound_textures st.current_texture_unit c).2.1
    current_texture_unit :=
      (extractorUpdates st.current_program st.bound_textures st.current_texture_unit c).2.2 }

/-- Build the `DrawCallInfo` appended for a recognized draw chunk, from the
tracker state current at that point (`base` = number of earlier records). -/
def mkRecord (st : ExtractState) (base : Nat) (c : Chunk) : DrawCallInfo :=
  let counts : Int × Int :=
    match alookup "count" c.ints with
    | some (some v) => if strContains c.name "Elements" then (0, v) else (v, 0)
    | _ => (0, 0)
  let inst : Int :=
    if strContains c.name "Instanced" then
      match alookup "instancecount" c.ints with
      | some o => o.getD 1
      | none =>
        match alookup "primcount" c.ints with
        | some o => o.getD 1
        | none => 1
    else 1
  { draw_id := base + 1
    event_id := c.eventId
    name := c.name
    duration_ns := c.duration
    vertex_count := counts.1
    index_count := counts.2
    instance_count := inst
    marker := (alookup "Label" c.strings).getD ""
    state := some st.rs.get_current_state
    bound_textures := st.bound_textures.filter (fun t => t != "")
    shader_program := st.current_program
    fbo_id := st.fb.current_fbo }

/-- One iteration of the `_extract_draws_with_state` loop. -/
def extract_step (acc : ExtractState × List DrawCallInfo) (c : Chunk) :
    ExtractState × List DrawCallInfo :=
  let st := stepTrackers acc.1 c
  if isDraw c.name then (st, acc.2 ++ [mkRecord st acc.2.length c])
  else (st, acc.2)

/-- `_extract_draws_with_state` over the whole event list, returning the
final tracker state and the ordered records. -/
def run_extraction (events : List Chunk) : ExtractState × List DrawCallInfo :=
  events.foldl extract_step (ExtractState.init, [])

/-- The ordered `DrawCallInfo` list of `_extract_draws_with_state`. -/
def extract_draws_with_state (events : List Chunk) : List DrawCallInfo :=
  (run_extraction events).2

/-- Tracker state after feeding a list of chunks from state `st`. -/
def stateAfter (st : ExtractState) (l : List Chunk) : ExtractState :=
  l.foldl stepTrackers st

/-- For every recognized draw chunk of the event list, the list of events
strictly before it paired with the draw chunk itself. -/
def drawSites : List Chunk → List (List Chunk × Chunk)
  | [] => []
  | c :: cs =>
    (if isDraw c.name then [(([] : List Chunk), c)] else []) ++
    (drawSites cs).map (fun pc => (c :: pc.1, pc.2))

/-- The event prefixes strictly before each recognized draw chunk. -/
def drawPreLists (events : List Chunk) : List (List Chunk) :=
  (drawSites events).map (fun pc => pc.1)

/-- Records produced for a list of draw sites, starting from state `st`
with `base` earlier records. -/
def siteRecords (st : ExtractState) : Nat → List (List Chunk × Chunk) →
    List DrawCallInfo
  | _, [] => []
  | base, (p, c) :: rest =>
    mkRecord (stepTrackers (stateAfter st p) c) base c ::
      siteRecords st (base + 1) rest

/-- The most recent `glBindFramebuffer` target of an event list, starting
from `a` (spec: "the id set by the most recent preceding bind event", with
absent targets resolving to the default id). -/
def lastBindFrom (a : String) (l : List Chunk) : String :=
  l.foldl (fun acc c => if c.name = "glBindFramebuffer" then bindFbResolve c else acc) a

/-- Spec-side framebuffer resolution for a draw: the most recent preceding
bind target, or the pre-registered default id when no bind occurred. -/
def specLastBoundFbo (l : List Chunk) : String := lastBindFrom "0" l

/-! ## Pass segmenter -/

/-- `PassInfo` dataclass. -/
structure PassInfo where
  name : String
  pass_index : Nat := 0
  draw_calls : List DrawCallInfo := []
  duration_ms : ℚ := 0
  resolution : String := ""
  fbo_id : String := ""
  input_textures : List String := []
  output_textures : List String := []
deriving DecidableEq

/-- Loop state of `_extract_passes_with_fbo`: completed passes, the open
pass, the pass counter and the segmenter's `current_fbo`. -/
structure SegState where
  finished : List PassInfo
  cur : Option PassInfo
  counter : Nat
  current_fbo : String

/-- Fresh segmenter state. -/
def SegState.init : SegState :=
  { finished := [], cur := none, counter := 0, current_fbo := "" }

/-- The new-pass test of `_extract_passes_with_fbo`: no open pass, a
framebuffer change, a marker change, or the 200-draw cap. -/
def segNeedNew (st : SegState) (d : DrawCallInfo) : Bool :=
  match st.cur with
  | none => true
  | some cp =>
    (d.fbo_id != "" && d.fbo_id != st.current_fbo) ||
    (d.marker != "" && cp.name != d.marker) ||
    decide (cp.draw_calls.length ≥ 200)

/-- Pass-name resolution when a pass starts (marker, then FBO descriptor
name, then synthetic). -/
def segPassName (fbs : List (String × FramebufferInfo)) (counter : Nat)
    (d : DrawCallInfo) : String :=
  if d.marker != "" then d.marker
  else if d.fbo_id != "" && d.fbo_id != "0" then
    match alookup d.fbo_id fbs with
    | some fi =>
      if fi.name != "" then fi.name
      else "Pass_" ++ toString counter ++ "_FBO_" ++ d.fbo_id
    | none => "Pass_" ++ toString counter ++ "_FBO_" ++ d.fbo_id
  else "Pass_" ++ toString counter

/-- One iteration of the `_extract_passes_with_fbo` loop: open a new pass
when needed, then append the draw and accumulate its duration. -/
def segStep (fbs : List (String × FramebufferInfo)) (st : SegState)
    (d : DrawCallInfo) : SegState :=
  if segNeedNew st d then
    let counter := st.counter + 1
    let np : PassInfo :=
      { name := segPassName fbs counter d, pass_index := counter - 1
        draw_calls := [d], duration_ms := d.gpu_duration_ms
        fbo_id := d.fbo_id }
    { finished := st.finished ++ st.cur.toList, cur := some np
      counter := counter, current_fbo := d.fbo_id }
  else
    match st.cur with
    | none => st
    | some cp =>
      let cp' : PassInfo :=
        { cp with draw_calls := cp.draw_calls ++ [d]
                  duration_ms := cp.duration_ms + d.gpu_duration_ms }
      { st with cur := some cp' }

/-- The ordered pass list before the final index rewrite. -/
def segPasses (draws : List DrawCallInfo)
    (fbs : List (String × FramebufferInfo)) : List PassInfo :=
  let st := draws.foldl (segStep fbs) SegState.init
  st.finished ++ st.cur.toList

/-- The final `pass_index = position` rewrite of `_extract_passes_with_fbo`. -/
def reindexFrom : Nat → List PassInfo → List PassInfo
  | _, [] => []
  | i, p :: ps => { p with pass_index := i } :: reindexFrom (i + 1) ps

/-- `_extract_passes_with_fbo`. -/
def extract_passes_with_fbo (draws : List DrawCallInfo)
    (fbs : List (String × FramebufferInfo)) : List PassInfo :=
  reindexFrom 0 (segPasses draws fbs)

/-! ## Pass dependency analyzer -/

/-- `PassDependency` dataclass. -/
structure PassDependency where
  source_pass : String
  source_pass_index : Nat
  target_pass : String
  target_pass_index : Nat
  resource_type : String
  resource_id : String
  resource_name : String := ""
  dependency_type : String := "READ_AFTER_WRITE"
deriving DecidableEq

/-- Owner-map insert: a later write overwrites the owner (prepend wins on
first-match lookup). -/
def insertOwner (k : String) (v : Nat × String)
    (m : List (String × Nat × String)) : List (String × Nat × String) :=
  (k, v) :: m

/-- Step 1 of `PassDependencyAnalyzer.analyze`: texture id → most recent
writing pass (index, name), from each pass's framebuffer color and depth
attachments. -/
def buildOutputMap (passes : List PassInfo)
    (fbs : List (String × FramebufferInfo)) : List (String × Nat × String) :=
  passes.enum.foldl (fun m ip =>
    match alookup ip.2.fbo_id fbs with
    | none => m
    | some fbo =>
      let m1 := fbo.color_attachments.foldl
        (fun m ca => insertOwner ca.texture_id (ip.1, ip.2.name) m) m
      match fbo.depth_attachment with
      | some da => insertOwner da.texture_id (ip.1, ip.2.name) m1
      | none => m1) []

/-- Edge emission for one bound texture of one draw of pass `i`. -/
def depsForTex (omap : List (String × Nat × String)) (i : Nat) (pname : String)
    (deps : List PassDependency) (tex : String) : List PassDependency :=
  match alookup tex omap with
  | some si =>
    if si.1 < i then
      deps ++ [{ source_pass := si.2, source_pass_index := si.1
                 target_pass := pname, target_pass_index := i
                 resource_type := "TEXTURE", resource_id := tex }]
    else deps
  | none => deps

/-- `PassDependencyAnalyzer.analyze`, returning the emitted dependency
edges (the `input_textures`/`output_textures` side writes do not feed back
into the edge computation and are not tracked here). -/
def analyze_dependencies (passes : List PassInfo)
    (fbs : List (String × FramebufferInfo)) : List PassDependency :=
  let omap := buildOutputMap passes fbs
  passes.enum.foldl (fun deps ip =>
    ip.2.draw_calls.foldl (fun deps d =>
      d.bound_textures.foldl (depsForTex omap ip.1 ip.2.name) deps) deps) []

/-! ## Concrete inputs for the scenarios, witnesses and counterexamples -/

/-- A `glDepthMask` chunk carrying no attribute at all. -/
def depthMaskChunkC : Chunk := emptyChunk "glDepthMask"

/-- A `glSamplerParameteri` chunk naming no sampler object. -/
def sampChunkW : Chunk :=
  { emptyChunk "glSamplerParameteri" with
      enums := [("pname", "GL_TEXTURE_MIN_FILTER"), ("param", "GL_NEAREST")] }

/-- A `glTexParameteri` chunk (no sampler object, texture-target variant). -/
def texChunkW : Chunk :=
  { emptyChunk "glTexParameteri" with
      enums := [("pname", "GL_TEXTURE_MIN_FILTER"), ("param", "GL_NEAREST")] }

/-- A bare `glDrawArrays` chunk. -/
def drawChunkW : Chunk := emptyChunk "glDrawArrays"

/-- Scenario A events: bind FBO "A", attach color0 = texX, draw; bind FBO
"B", attach color0 = texY, bind texX to unit 0, draw. -/
def eventsA : List Chunk :=
  [{ emptyChunk "glBindFramebuffer" with resourceIds := [("framebuffer", "A")] },
   { emptyChunk "glFramebufferTexture2D" with
       enums := [("attachment", "GL_COLOR_ATTACHMENT0")]
       resourceIds := [("texture", "texX")], ints := [("level", some 0)] },
   { emptyChunk "glDrawArrays" with ints := [("count", some 3)] },
   { emptyChunk "glBindFramebuffer" with resourceIds := [("framebuffer", "B")] },
   { emptyChunk "glFramebufferTexture2D" with
       enums := [("attachment", "GL_COLOR_ATTACHMENT0")]
       resourceIds := [("texture", "texY")], ints := [("level", some 0)] },
   { emptyChunk "glBindTexture" with resourceIds := [("texture", "texX")] },
   { emptyChunk "glDrawArrays" with ints := [("count", some 3)] }]

/-- Final tracker state and records of scenario A. -/
def runA : ExtractState × List DrawCallInfo := run_extraction eventsA

/-- Scenario A framebuffer registry. -/
def regA : List (String × FramebufferInfo) := runA.1.fb.framebuffers

/-- Scenario A passes. -/
def passesA : List PassInfo := extract_passes_with_fbo runA.2 regA

/-- Scenario A dependency edges. -/
def depsA : List PassDependency := analyze_dependencies passesA regA

/-- The single expected scenario A edge. -/
def depA : PassDependency :=
  { source_pass := "FBO_A", source_pass_index := 0
    target_pass := "FBO_B", target_pass_index := 1
    resource_type := "TEXTURE", resource_id := "texX" }

/-- One draw record sharing marker "m" and framebuffer "0" (Scenario B). -/
def dM : DrawCallInfo :=
  { draw_id := 1, name := "glDrawArrays", marker := "m", fbo_id := "0" }

/-- A single draw record used to instantiate the segmenter invariants. -/
def dW : DrawCallInfo :=
  { draw_id := 1, name := "glDrawArrays", duration_ns := 2000000, fbo_id := "0" }

/-- The single pass the segmenter produces from `[dW]`. -/
def pW : PassInfo :=
  { name := "Pass_1", pass_index := 0, draw_calls := [dW]
    duration_ms := dW.gpu_duration_ms, fbo_id := "0" }

/-- Events binding texX to two different units before a draw. -/
def eventsDup : List Chunk :=
  [{ emptyChunk "glBindTexture" with resourceIds := [("texture", "X")] },
   { emptyChunk "glActiveTexture" with enums := [("texture", "GL_TEXTURE1")] },
   { emptyChunk "glBindTexture" with resourceIds := [("texture", "X")] },
   emptyChunk "glDrawArrays"]


/-! ## Generic helper lemmas -/

theorem ne_of_isDraw {s : String} (h : isDraw s = true) (t : String)
    (ht : isDraw t = false) : s ≠ t := by
  intro he
  rw [he] at h
  rw [h] at ht
  exact Bool.noConfusion ht

theorem list_map_congr_mem {α β : Type} {f g : α → β} :
    ∀ {l : List α}, (∀ a ∈ l, f a = g a) → l.map f = l.map g := by
  intro l
  induction l with
  | nil => intro _; rfl
  | cons a as ih =>
    intro h
    simp only [List.map_cons]
    rw [h a (by simp), ih (fun x hx => h x (by simp [hx]))]

/-! ## C6 -/

/-- C6: for every state of the state tracker, taking two snapshots with no
intervening event yields value-equal `DrawCallState`s, where value equality
(every field equal) coincides with equality. -/
theorem C6_snapshot_idempotent :
    (∀ s : RenderStateTracker,
      dcsValueEq s.get_current_state s.get_current_state) ∧
    (∀ a b : DrawCallState, dcsValueEq a b ↔ a = b) := by
  constructor
  · intro s
    exact ⟨rfl, rfl, rfl, rfl, rfl, rfl, rfl⟩
  · intro a b
    cases a
    cases b
    simp [dcsValueEq]

/-! ## C5 -/

set_option maxRecDepth 100000 in
/-- C5: 250 consecutive draws sharing one non-empty marker and one
framebuffer id produce exactly 2 passes, split only by the 200-draw cap
(200 draws, then the remaining 50). -/
theorem C5_draw_cap_split :
    (extract_passes_with_fbo (List.replicate 250 dM) []).length = 2 ∧
    (extract_passes_with_fbo (List.replicate 250 dM) []).map
      (fun p => p.draw_calls.length) = [200, 50] := by
  decide

/-! ## C10 -/

/-- C10: scenario A (bind FBO "A", attach color0=texX, draw; bind FBO "B",
attach color0=texY, bind texX to unit 0, draw) yields exactly 2 passes and
exactly one dependency edge, pass 0 → pass 1 on texX, READ_AFTER_WRITE. -/
theorem C10_scenario_a :
    passesA.length = 2 ∧ depsA = [depA] ∧
    depA.source_pass_index = 0 ∧ depA.target_pass_index = 1 ∧
    depA.resource_id = "texX" ∧ depA.dependency_type = "READ_AFTER_WRITE" := by
  decide

/-! ## Counterexamples for the corrected claims -/

/-- C1 counterexample: a recognized `glDepthMask` event with its `flag`
attribute absent does not retain the prior depth-write value: from the
default state (write enabled) it resets the field to `false`. -/
theorem C1_counterexample :
    RenderStateTracker.reset.depth_write_enabled = true ∧
    (RenderStateTracker.reset.process_chunk depthMaskChunkC).depth_write_enabled
      = false := by
  decide

/-- C2 counterexample: a `glTexParameteri` with no explicit sampler object
and no texture bound to the active unit is not dropped: starting from a
fresh tracker (no descriptors) it creates a new sampler descriptor. -/
theorem C2_counterexample :
    SamplerTracker.init.samplers = [] ∧
    (SamplerTracker.init.process_chunk texChunkW).samplers.length = 1 := by
  decide

/-- C7 counterexample: a draw with no preceding bind event records the
framebuffer id "0" (the pre-registered default), not the id "default"
stated by the claim. -/
theorem C7_counterexample :
    (extract_draws_with_state [drawChunkW]).map (fun r => r.fbo_id) = ["0"] ∧
    "0" ≠ "default" := by
  decide

/-- C8 counterexample: when the same texture id is bound to two different
units at the time of a draw, the recorded bound-textures list contains the
id twice, contradicting the no-duplicates claim. -/
theorem C8_counterexample :
    (extract_draws_with_state eventsDup).map (fun r => r.bound_textures)
      = [["X", "X"]] ∧
    ¬ ([("X" : String), "X"].Nodup) := by
  decide

/-! ## C1 -/

theorem enable_capability_frame (s : RenderStateTracker) (cap : String) (e : Bool) :
    { s.enable_capability cap e with
        blend_enabled := s.blend_enabled
        depth_test_enabled := s.depth_test_enabled
        stencil_enabled := s.stencil_enabled
        cull_enabled := s.cull_enabled
        scissor_enabled := s.scissor_enabled } = s := by
  unfold RenderStateTracker.enable_capability
  split_ifs <;> rfl

/-- C1 (amended): for every tracker state and every event, the fields not
controlled by the event's name are left unchanged (restoring the controlled
fields recovers the original state), and processing is total, so a missing
or unparseable attribute never crashes and never corrupts unrelated
fields; but the controlled field is set to a fallback value rather than
retaining its prior value — e.g. a `glDepthMask` with its `flag` attribute
absent sets the depth-write field to `false`. -/
theorem C1_state_frame :
    ∀ (s : RenderStateTracker) (c : Chunk),
      restoreControlledFields c.name s (s.process_chunk c) = s ∧
      (c.name = "glDepthMask" → c.bools = [] → c.bytes = [] →
        s.process_chunk c = { s with depth_write_enabled := false }) := by
  intro s c
  constructor
  · by_cases h1 : c.name = "glEnable"
    · simp [RenderStateTracker.process_chunk, restoreControlledFields, h1]
      try exact enable_capability_frame s _ true
    · by_cases h2 : c.name = "glDisable"
      · simp [RenderStateTracker.process_chunk, restoreControlledFields, h2]
        try exact enable_capability_frame s _ false
      · by_cases h3 : c.name = "glBlendFunc"
        · simp [RenderStateTracker.process_chunk, restoreControlledFields, h3]
        · by_cases h4 : c.name = "glBlendFuncSeparate"
          · simp [RenderStateTracker.process_chunk, restoreControlledFields, h4]
          · by_cases h5 : c.name = "glBlendEquation"
            · simp [RenderStateTracker.process_chunk, restoreControlledFields, h5]
            · by_cases h6 : c.name = "glBlendEquationSeparate"
              · simp [RenderStateTracker.process_chunk, restoreControlledFields, h6]
              · by_cases h7 : c.name = "glDepthFunc"
                · simp [RenderStateTracker.process_chunk, restoreControlledFields, h7]
                · by_cases h8 : c.name = "glDepthMask"
                  · simp [RenderStateTracker.process_chunk, restoreControlledFields, h8]
                  · by_cases h9 : c.name = "glStencilFunc"
                    · simp [RenderStateTracker.process_chunk,
                        restoreControlledFields, h9]
                    · by_cases h10 : c.name = "glStencilOp"
                      · simp [RenderStateTracker.process_chunk,
                          restoreControlledFields, h10]
                      · by_cases h11 : c.name = "glCullFace"
                        · simp [RenderStateTracker.process_chunk,
                            restoreControlledFields, h11]
                        · by_cases h12 : c.name = "glFrontFace"
                          · simp [RenderStateTracker.process_chunk,
                              restoreControlledFields, h12]
                          · by_cases h13 : c.name = "glScissor"
                            · simp [RenderStateTracker.process_chunk,
                                restoreControlledFields, h13]
                            · by_cases h14 : c.name = "glColorMask"
                              · simp [RenderStateTracker.process_chunk,
                                  restoreControlledFields, h14]
                              · by_cases h15 : c.name = "glPolygonMode"
                                · simp [RenderStateTracker.process_chunk,
                                    restoreControlledFields, h15]
                                · simp [RenderStateTracker.process_chunk,
                                    restoreControlledFields, h1, h2, h3, h4, h5,
                                    h6, h7, h8, h9, h10, h11, h12, h13, h14, h15]
  · intro hn hb hy
    simp [RenderStateTracker.process_chunk, hn, get_bool_value, hb, hy, alookup]

/-- C1 witness: the frame equality and the fallback behaviour evaluated at
the default state and the attribute-free `glDepthMask` chunk. -/
theorem C1_state_frame_witness :
    restoreControlledFields "glDepthMask" RenderStateTracker.reset
      (RenderStateTracker.reset.process_chunk depthMaskChunkC)
        = RenderStateTracker.reset ∧
    RenderStateTracker.reset.process_chunk depthMaskChunkC
      = { RenderStateTracker.reset with depth_write_enabled := false } :=
  ⟨(C1_state_frame RenderStateTracker.reset depthMaskChunkC).1,
   (C1_state_frame RenderStateTracker.reset depthMaskChunkC).2 rfl rfl rfl⟩

/-! ## C2 -/

theorem alookup_map_set {β : Type} (k : String) (v : β) :
    ∀ m : List (String × β),
      alookup k (m.map (fun p => if p.1 = k then (k, v) else p)) =
        (alookup k m).map (fun _ => v) := by
  intro m
  induction m with
  | nil => rfl
  | cons a as ih =>
    obtain ⟨x, y⟩ := a
    rcases eq_or_ne x k with h | h
    · subst h
      have hh : (if (x, y).1 = x then (x, v) else (x, y)) = (x, v) := by simp
      rw [List.map_cons, hh]
      simp [alookup]
    · have hh : (if (x, y).1 = k then (k, v) else (x, y)) = (x, y) := by simp [h]
      rw [List.map_cons, hh]
      simp [alookup, h, ih]

theorem alookup_append_right {β : Type} (k : String) (v : β) :
    ∀ m : List (String × β), alookup k m = none →
      alookup k (m ++ [(k, v)]) = some v := by
  intro m
  induction m with
  | nil => intro _; simp [alookup]
  | cons a as ih =>
    obtain ⟨x, y⟩ := a
    intro h
    by_cases hx : x = k
    · simp [alookup, hx] at h
    · simp [alookup, hx] at h ⊢
      exact ih h

theorem alistSet_lookup_self {β : Type} (m : List (String × β)) (k : String)
    (v : β) : alookup k (alistSet m k v) = some v := by
  unfold alistSet
  by_cases h : (alookup k m).isSome
  · rw [if_pos h, alookup_map_set]
    obtain ⟨b, hb⟩ := Option.isSome_iff_exists.mp h
    rw [hb]
    rfl
  · rw [if_neg h]
    exact alookup_append_right _ _ _ (Option.not_isSome_iff_eq_none.mp h)

theorem tex_unit_key_ne_empty (u : Nat) : ("tex_unit_" ++ toString u) ≠ "" := by
  intro h
  have h2 := congrArg String.length h
  rw [String.length_append] at h2
  have e1 : ("tex_unit_" : String).length = 9 := rfl
  have e2 : ("" : String).length = 0 := rfl
  rw [e1, e2] at h2
  omega

/-- C2 (amended): a parameter-set event is dropped (tracker unchanged) only
when it is an explicit glSamplerParameter* call whose sampler id cannot be
resolved; a glTexParameter* arriving while no texture is bound to the
active unit is NOT dropped — it is applied to a synthetic descriptor keyed
`tex_unit_<active-unit>`, which is created or updated in the registry. -/
theorem C2_sampler_resolution :
    (∀ (st : SamplerTracker) (c : Chunk),
      (c.name = "glSamplerParameteri" ∨ c.name = "glSamplerParameterf") →
      get_resource_id c "sampler" = "" →
      st.process_chunk c = st) ∧
    (∀ (st : SamplerTracker) (c : Chunk),
      (c.name = "glTexParameteri" ∨ c.name = "glTexParameterf") →
      alookup st.current_texture_unit st.bound_textures = none →
      (alookup ("tex_unit_" ++ toString st.current_texture_unit)
        (st.process_chunk c).samplers).isSome = true) := by
  constructor
  · rintro st c (hn | hn) hs
    · simp [SamplerTracker.process_chunk, hn, SamplerTracker.process_tex_param, hs,
        show strContains "glSamplerParameteri" "Sampler" = true from by decide]
    · simp [SamplerTracker.process_chunk, hn, SamplerTracker.process_tex_param, hs,
        show strContains "glSamplerParameterf" "Sampler" = true from by decide]
  · rintro st c (hn | hn) hb
    · simp [SamplerTracker.process_chunk, hn, SamplerTracker.process_tex_param, hb,
        show strContains "glTexParameteri" "Sampler" = false from by decide,
        tex_unit_key_ne_empty st.current_texture_unit, alistSet_lookup_self]
    · simp [SamplerTracker.process_chunk, hn, SamplerTracker.process_tex_param, hb,
        show strContains "glTexParameterf" "Sampler" = false from by decide,
        tex_unit_key_ne_empty st.current_texture_unit, alistSet_lookup_self]

/-- C2 witness: both parts of the amended claim evaluated on a fresh
tracker, with a sampler-parameter chunk naming no sampler (dropped) and a
texture-parameter chunk with nothing bound (synthetic key created). -/
theorem C2_sampler_resolution_witness :
    SamplerTracker.init.process_chunk sampChunkW = SamplerTracker.init ∧
    (alookup ("tex_unit_" ++ toString SamplerTracker.init.current_texture_unit)
      (SamplerTracker.init.process_chunk texChunkW).samplers).isSome = true :=
  ⟨C2_sampler_resolution.1 SamplerTracker.init sampChunkW (Or.inl rfl) rfl,
   C2_sampler_resolution.2 SamplerTracker.init texChunkW (Or.inl rfl) rfl⟩

/-! ## C3 -/

theorem foldl_preserve {α β : Type} (P : β → Prop) (f : β → α → β)
    (hf : ∀ acc x, P acc → P (f acc x)) :
    ∀ (l : List α) (acc : β), P acc → P (l.foldl f acc) := by
  intro l
  induction l with
  | nil => intro acc h; exact h
  | cons a as ih => intro acc h; exact ih _ (hf _ _ h)

theorem depsForTex_forward (omap : List (String × Nat × String)) (i : Nat)
    (pname : String) (deps : List PassDependency) (tex : String)
    (h : ∀ e ∈ deps, e.source_pass_index < e.target_pass_index) :
    ∀ e ∈ depsForTex omap i pname deps tex,
      e.source_pass_index < e.target_pass_index := by
  intro e he
  unfold depsForTex at he
  split at he
  · split at he
    next hlt =>
      rcases List.mem_append.mp he with h1 | h1
      · exact h e h1
      · simp at h1
        subst h1
        exact hlt
    next hlt => exact h e he
  · exact h e he

/-- C3: every dependency edge the analyzer emits has its source pass index
strictly less than its target pass index; same-pass or backward edges are
never produced. -/
theorem C3_edges_forward (passes : List PassInfo)
    (fbs : List (String × FramebufferInfo)) :
    ∀ e ∈ analyze_dependencies passes fbs,
      e.source_pass_index < e.target_pass_index := by
  have hbase : ∀ e ∈ ([] : List PassDependency),
      e.source_pass_index < e.target_pass_index := by
    intro e he
    cases he
  have h := foldl_preserve
    (fun deps => ∀ e ∈ deps, e.source_pass_index < e.target_pass_index)
    (fun deps ip => ip.2.draw_calls.foldl
      (fun deps2 d => d.bound_textures.foldl
        (depsForTex (buildOutputMap passes fbs) ip.1 ip.2.name) deps2) deps)
    (fun acc ip hacc =>
      foldl_preserve
        (fun deps => ∀ e ∈ deps, e.source_pass_index < e.target_pass_index)
        (fun deps2 d => d.bound_textures.foldl
          (depsForTex (buildOutputMap passes fbs) ip.1 ip.2.name) deps2)
        (fun acc2 d hacc2 =>
          foldl_preserve
            (fun deps => ∀ e ∈ deps, e.source_pass_index < e.target_pass_index)
            (depsForTex (buildOutputMap passes fbs) ip.1 ip.2.name)
            (fun acc3 tex hacc3 => depsForTex_forward _ _ _ acc3 tex hacc3)
            d.bound_textures acc2 hacc2)
        ip.2.draw_calls acc hacc)
    passes.enum [] hbase
  exact h

/-- C3 witness: the single scenario A edge, with indices 0 < 1. -/
theorem C3_edges_forward_witness :
    depA.source_pass_index < depA.target_pass_index :=
  C3_edges_forward passesA regA depA (by decide)

/-! ## C9 -/

theorem process_state_chunk_skip (s : RenderStateTracker) (c : Chunk)
    (h1 : c.name ≠ "glEnable") (h2 : c.name ≠ "glDisable")
    (h3 : c.name ≠ "glBlendFunc") (h4 : c.name ≠ "glBlendFuncSeparate")
    (h5 : c.name ≠ "glBlendEquation") (h6 : c.name ≠ "glBlendEquationSeparate")
    (h7 : c.name ≠ "glDepthFunc") (h8 : c.name ≠ "glDepthMask")
    (h9 : c.name ≠ "glStencilFunc") (h10 : c.name ≠ "glStencilOp")
    (h11 : c.name ≠ "glCullFace") (h12 : c.name ≠ "glFrontFace")
    (h13 : c.name ≠ "glScissor") (h14 : c.name ≠ "glColorMask")
    (h15 : c.name ≠ "glPolygonMode") :
    s.process_chunk c = s := by
  unfold RenderStateTracker.process_chunk
  rw [if_neg h1, if_neg h2, if_neg h3, if_neg h4, if_neg h5, if_neg h6,
    if_neg h7, if_neg h8, if_neg h9, if_neg h10, if_neg h11, if_neg h12,
    if_neg h13, if_neg h14, if_neg h15]

theorem process_sampler_chunk_skip (st : SamplerTracker) (c : Chunk)
    (hA : c.name ≠ "glActiveTexture") (hB : c.name ≠ "glBindTexture")
    (h1 : c.name ≠ "glTexParameteri") (h2 : c.name ≠ "glTexParameterf")
    (h3 : c.name ≠ "glSamplerParameteri") (h4 : c.name ≠ "glSamplerParameterf") :
    st.process_chunk c = st := by
  unfold SamplerTracker.process_chunk
  rw [if_neg hA, if_neg hB, if_neg (by simp [h1, h2, h3, h4])]

theorem process_fbo_chunk_skip (fb : FramebufferTracker) (c : Chunk)
    (h1 : c.name ≠ "glBindFramebuffer")
    (h2 : c.name ≠ "glFramebufferTexture2D") (h3 : c.name ≠ "glFramebufferTexture")
    (h4 : c.name ≠ "glFramebufferRenderbuffer") (h5 : c.name ≠ "glClear")
    (h6 : c.name ≠ "glClearColor") (h7 : c.name ≠ "glClearDepthf")
    (h8 : c.name ≠ "glClearDepth") (h9 : c.name ≠ "glDrawBuffers") :
    fb.process_chunk c = fb := by
  unfold FramebufferTracker.process_chunk
  rw [if_neg h1, if_neg (by simp [h2, h3]), if_neg h4, if_neg h5, if_neg h6,
    if_neg (by simp [h7, h8]), if_neg h9]

theorem extractor_updates_skip (prog : String) (bt : List String) (unit : Nat)
    (c : Chunk) (h1 : c.name ≠ "glUseProgram") (h2 : c.name ≠ "glActiveTexture")
    (h3 : c.name ≠ "glBindTexture") :
    extractorUpdates prog bt unit c = (prog, bt, unit) := by
  unfold extractorUpdates
  rw [if_neg h1, if_neg h2, if_neg h3]

theorem stepTrackers_draw (st : ExtractState) (c : Chunk)
    (h : isDraw c.name = true) : stepTrackers st c = st := by
  have nd : ∀ t : String, isDraw t = false → c.name ≠ t := by
    intro t ht he
    rw [he] at h
    rw [h] at ht
    exact Bool.noConfusion ht
  unfold stepTrackers
  rw [process_state_chunk_skip st.rs c (nd _ (by decide)) (nd _ (by decide))
      (nd _ (by decide)) (nd _ (by decide)) (nd _ (by decide)) (nd _ (by decide))
      (nd _ (by decide)) (nd _ (by decide)) (nd _ (by decide)) (nd _ (by decide))
      (nd _ (by decide)) (nd _ (by decide)) (nd _ (by decide)) (nd _ (by decide))
      (nd _ (by decide)),
    process_sampler_chunk_skip st.samp c (nd _ (by decide)) (nd _ (by decide))
      (nd _ (by decide)) (nd _ (by decide)) (nd _ (by decide)) (nd _ (by decide)),
    process_fbo_chunk_skip st.fb c (nd _ (by decide)) (nd _ (by decide))
      (nd _ (by decide)) (nd _ (by decide)) (nd _ (by decide)) (nd _ (by decide))
      (nd _ (by decide)) (nd _ (by decide)) (nd _ (by decide)),
    extractor_updates_skip st.current_program st.bound_textures
      st.current_texture_unit c (nd _ (by decide)) (nd _ (by decide))
      (nd _ (by decide))]

/-- C9: a recognized draw/dispatch event never mutates the pipeline-state
tracker, the sampler tracker, the framebuffer tracker or the
program/texture bindings; the record appended for it snapshots exactly the
tracker state in effect immediately before the event. -/
theorem C9_draw_does_not_mutate (st : ExtractState)
    (recs : List DrawCallInfo) (c : Chunk) (h : isDraw c.name = true) :
    stepTrackers st c = st ∧
    extract_step (st, recs) c = (st, recs ++ [mkRecord st recs.length c]) := by
  have hs := stepTrackers_draw st c h
  refine ⟨hs, ?_⟩
  simp [extract_step, hs, h]

/-- C9 witness: the fresh tracker state and a bare `glDrawArrays` chunk. -/
theorem C9_draw_does_not_mutate_witness :
    stepTrackers ExtractState.init drawChunkW = ExtractState.init ∧
    extract_step (ExtractState.init, []) drawChunkW
      = (ExtractState.init, [mkRecord ExtractState.init 0 drawChunkW]) :=
  C9_draw_does_not_mutate ExtractState.init [] drawChunkW (by decide)

/-! ## C4 -/

theorem segStep_partition (fbs : List (String × FramebufferInfo))
    (st : SegState) (d : DrawCallInfo) (pre : List DrawCallInfo)
    (hj : ((st.finished ++ st.cur.toList).map (fun p => p.draw_calls)).flatten = pre)
    (hd : ∀ p ∈ st.finished ++ st.cur.toList,
      p.duration_ms = (p.draw_calls.map (fun x => x.gpu_duration_ms)).sum) :
    (((segStep fbs st d).finished ++ (segStep fbs st d).cur.toList).map
        (fun p => p.draw_calls)).flatten = pre ++ [d] ∧
    ∀ p ∈ (segStep fbs st d).finished ++ (segStep fbs st d).cur.toList,
      p.duration_ms = (p.draw_calls.map (fun x => x.gpu_duration_ms)).sum := by
  have hj' : (st.finished.map (fun p => p.draw_calls)).flatten ++
      (st.cur.toList.map (fun p => p.draw_calls)).flatten = pre := by
    simpa [List.map_append, List.flatten_append] using hj
  by_cases h : segNeedNew st d = true
  · constructor
    · simp only [segStep, if_pos h, Option.toList_some, List.map_append,
        List.flatten_append, List.map_cons, List.map_nil, List.flatten_cons,
        List.flatten_nil]
      rw [← hj']
      simp
    · intro p hp
      simp only [segStep, if_pos h, Option.toList_some] at hp
      rcases List.mem_append.mp hp with h1 | h1
      · exact hd p h1
      · simp at h1
        subst h1
        simp
  · obtain ⟨cp, hcur⟩ : ∃ cp, st.cur = some cp := by
      cases hcur : st.cur with
      | none => exact absurd (by simp [segNeedNew, hcur]) h
      | some cp => exact ⟨cp, rfl⟩
    have hstep : segStep fbs st d = { st with cur := some ({ cp with draw_calls := cp.draw_calls ++ [d], duration_ms := cp.duration_ms + d.gpu_duration_ms }) } := by
      simp only [segStep, if_neg h, hcur]
    rw [hcur] at hj' hd
    constructor
    · rw [hstep]
      simp only [Option.toList_some, List.map_append, List.flatten_append,
        List.map_cons, List.map_nil, List.flatten_cons, List.flatten_nil]
      rw [← hj']
      simp
    · intro p hp
      rw [hstep] at hp
      simp only [Option.toList_some] at hp
      rcases List.mem_append.mp hp with h1 | h1
      · exact hd p (List.mem_append.mpr (Or.inl h1))
      · simp at h1
        subst h1
        have hcp := hd cp (List.mem_append.mpr (Or.inr (by simp)))
        simp [hcp, List.sum_append]

theorem segFold_partition (fbs : List (String × FramebufferInfo)) :
    ∀ (draws : List DrawCallInfo) (st : SegState) (pre : List DrawCallInfo),
      ((st.finished ++ st.cur.toList).map (fun p => p.draw_calls)).flatten = pre →
      (∀ p ∈ st.finished ++ st.cur.toList,
        p.duration_ms = (p.draw_calls.map (fun x => x.gpu_duration_ms)).sum) →
      ((((draws.foldl (segStep fbs) st).finished ++
          (draws.foldl (segStep fbs) st).cur.toList).map
            (fun p => p.draw_calls)).flatten = pre ++ draws ∧
        ∀ p ∈ (draws.foldl (segStep fbs) st).finished ++
            (draws.foldl (segStep fbs) st).cur.toList,
          p.duration_ms = (p.draw_calls.map (fun x => x.gpu_duration_ms)).sum) := by
  intro draws
  induction draws with
  | nil =>
    intro st pre hj hd
    exact ⟨by simpa using hj, hd⟩
  | cons d ds ih =>
    intro st pre hj hd
    have hstep := segStep_partition fbs st d pre hj hd
    have hrec := ih (segStep fbs st d) (pre ++ [d]) hstep.1 hstep.2
    refine ⟨?_, hrec.2⟩
    rw [List.foldl_cons, hrec.1]
    simp

theorem reindexFrom_length :
    ∀ (l : List PassInfo) (i : Nat), (reindexFrom i l).length = l.length := by
  intro l
  induction l with
  | nil => intro i; rfl
  | cons p ps ih => intro i; simp [reindexFrom, ih]

theorem reindexFrom_map_draws :
    ∀ (l : List PassInfo) (i : Nat),
      (reindexFrom i l).map (fun p => p.draw_calls) =
        l.map (fun p => p.draw_calls) := by
  intro l
  induction l with
  | nil => intro i; rfl
  | cons p ps ih => intro i; simp [reindexFrom, ih]

theorem reindexFrom_map_index :
    ∀ (l : List PassInfo) (i : Nat),
      (reindexFrom i l).map (fun p => p.pass_index) = List.range' i l.length := by
  intro l
  induction l with
  | nil => intro i; rfl
  | cons p ps ih =>
    intro i
    simp only [reindexFrom, List.map_cons, List.length_cons, ih]
    rw [List.range'_succ i ps.length 1]

theorem reindexFrom_mem :
    ∀ (l : List PassInfo) (i : Nat) (p : PassInfo), p ∈ reindexFrom i l →
      ∃ q ∈ l, p.draw_calls = q.draw_calls ∧ p.duration_ms = q.duration_ms := by
  intro l
  induction l with
  | nil => intro i p hp; cases hp
  | cons q qs ih =>
    intro i p hp
    simp only [reindexFrom, List.mem_cons] at hp
    rcases hp with hp | hp
    · subst hp
      exact ⟨q, by simp, rfl, rfl⟩
    · obtain ⟨r, hr, h1, h2⟩ := ih (i + 1) p hp
      exact ⟨r, by simp [hr], h1, h2⟩

/-- C4: the segmenter assigns pass indices exactly 0..N-1 in traversal
order, the member-draw lists concatenate back to the input draw list (a
partition preserving order, no gaps, no overlaps), and each pass's total
duration is the sum of its member draws' durations. -/
theorem C4_segmenter_invariants (draws : List DrawCallInfo)
    (fbs : List (String × FramebufferInfo)) :
    (extract_passes_with_fbo draws fbs).map (fun p => p.pass_index)
      = List.range (extract_passes_with_fbo draws fbs).length ∧
    ((extract_passes_with_fbo draws fbs).map (fun p => p.draw_calls)).flatten
      = draws ∧
    ∀ p ∈ extract_passes_with_fbo draws fbs,
      p.duration_ms = (p.draw_calls.map (fun x => x.gpu_duration_ms)).sum := by
  have hinit_j : ((SegState.init.finished ++ SegState.init.cur.toList).map
      (fun p => p.draw_calls)).flatten = ([] : List DrawCallInfo) := rfl
  have hinit_d : ∀ p ∈ SegState.init.finished ++ SegState.init.cur.toList,
      p.duration_ms = (p.draw_calls.map (fun x => x.gpu_duration_ms)).sum := by
    intro p hp
    simp [SegState.init] at hp
  have hfold := segFold_partition fbs draws SegState.init [] hinit_j hinit_d
  refine ⟨?_, ?_, ?_⟩
  · show (reindexFrom 0 (segPasses draws fbs)).map (fun p => p.pass_index) = _
    rw [reindexFrom_map_index, show (extract_passes_with_fbo draws fbs).length
        = (segPasses draws fbs).length from reindexFrom_length _ 0,
      List.range_eq_range']
  · show ((reindexFrom 0 (segPasses draws fbs)).map (fun p => p.draw_calls)).flatten = _
    rw [reindexFrom_map_draws]
    simp only [segPasses, List.map_append, List.flatten_append]
    simpa using hfold.1
  · intro p hp
    obtain ⟨q, hq, h1, h2⟩ := reindexFrom_mem (segPasses draws fbs) 0 p hp
    rw [h1, h2]
    exact hfold.2 q hq

/-- C4 witness: the invariants instantiated at a one-draw input and its
single produced pass. -/
theorem C4_segmenter_invariants_witness :
    (extract_passes_with_fbo [dW] []).map (fun p => p.pass_index)
      = List.range (extract_passes_with_fbo [dW] []).length ∧
    pW.duration_ms = (pW.draw_calls.map (fun x => x.gpu_duration_ms)).sum :=
  ⟨(C4_segmenter_invariants [dW] []).1,
   (C4_segmenter_invariants [dW] []).2.2 pW (by
     have hm : extract_passes_with_fbo [dW] [] = [pW] := by rfl
     rw [hm]
     simp)⟩

/-! ## C7 and C8: per-draw record characterization -/

theorem stateAfter_nil (st : ExtractState) : stateAfter st [] = st := rfl

theorem stateAfter_cons (st : ExtractState) (c : Chunk) (l : List Chunk) :
    stateAfter st (c :: l) = stateAfter (stepTrackers st c) l := rfl

theorem lastBindFrom_cons (a : String) (c : Chunk) (l : List Chunk) :
    lastBindFrom a (c :: l) =
      lastBindFrom (if c.name = "glBindFramebuffer" then bindFbResolve c else a) l :=
  rfl

theorem siteRecords_map_cons (c : Chunk) :
    ∀ (l : List (List Chunk × Chunk)) (st : ExtractState) (base : Nat),
      siteRecords st base (l.map (fun pc => (c :: pc.1, pc.2))) =
        siteRecords (stepTrackers st c) base l := by
  intro l
  induction l with
  | nil => intro st base; rfl
  | cons pc rest ih =>
    intro st base
    obtain ⟨p, d⟩ := pc
    simp only [List.map_cons, siteRecords, stateAfter_cons]
    rw [ih]

theorem extract_fold_records :
    ∀ (events : List Chunk) (st : ExtractState) (recs : List DrawCallInfo),
      (events.foldl extract_step (st, recs)).2 =
        recs ++ siteRecords st recs.length (drawSites events) := by
  intro events
  induction events with
  | nil => intro st recs; simp [drawSites, siteRecords]
  | cons c cs ih =>
    intro st recs
    rw [List.foldl_cons]
    by_cases h : isDraw c.name = true
    · rw [show extract_step (st, recs) c = (stepTrackers st c,
          recs ++ [mkRecord (stepTrackers st c) recs.length c]) from by
            simp [extract_step, h],
        ih]
      simp [drawSites, h, siteRecords, stateAfter_nil, siteRecords_map_cons,
        List.append_assoc]
    · rw [show extract_step (st, recs) c = (stepTrackers st c, recs) from by
          simp [extract_step, h],
        ih]
      simp [drawSites, h, siteRecords_map_cons]

theorem current_fbo_process (fb : FramebufferTracker) (c : Chunk) :
    (fb.process_chunk c).current_fbo =
      if c.name = "glBindFramebuffer" then bindFbResolve c else fb.current_fbo := by
  unfold FramebufferTracker.process_chunk
  split_ifs <;> rfl

theorem current_fbo_stepTrackers (st : ExtractState) (c : Chunk) :
    (stepTrackers st c).fb.current_fbo =
      if c.name = "glBindFramebuffer" then bindFbResolve c else st.fb.current_fbo :=
  current_fbo_process st.fb c

theorem stateAfter_current_fbo :
    ∀ (l : List Chunk) (st : ExtractState),
      (stateAfter st l).fb.current_fbo = lastBindFrom st.fb.current_fbo l := by
  intro l
  induction l with
  | nil => intro st; rfl
  | cons c cs ih =>
    intro st
    rw [stateAfter_cons, ih, current_fbo_stepTrackers, lastBindFrom_cons]

theorem siteRecords_map_fbo :
    ∀ (sites : List (List Chunk × Chunk)) (st : ExtractState) (base : Nat),
      (siteRecords st base sites).map (fun r => r.fbo_id) =
        sites.map
          (fun pc => (stepTrackers (stateAfter st pc.1) pc.2).fb.current_fbo) := by
  intro sites
  induction sites with
  | nil => intro st base; rfl
  | cons pc rest ih =>
    intro st base
    obtain ⟨p, d⟩ := pc
    simp only [siteRecords, List.map_cons, ih]
    rfl

theorem siteRecords_map_bound :
    ∀ (sites : List (List Chunk × Chunk)) (st : ExtractState) (base : Nat),
      (siteRecords st base sites).map (fun r => r.bound_textures) =
        sites.map (fun pc => (stepTrackers (stateAfter st pc.1) pc.2).bound_textures.filter
          (fun t => t != "")) := by
  intro sites
  induction sites with
  | nil => intro st base; rfl
  | cons pc rest ih =>
    intro st base
    obtain ⟨p, d⟩ := pc
    simp only [siteRecords, List.map_cons, ih]
    rfl

theorem drawSites_isDraw :
    ∀ (events : List Chunk) (pc : List Chunk × Chunk), pc ∈ drawSites events →
      isDraw pc.2.name = true := by
  intro events
  induction events with
  | nil => intro pc hpc; cases hpc
  | cons c cs ih =>
    intro pc hpc
    simp only [drawSites] at hpc
    rcases List.mem_append.mp hpc with h1 | h1
    · by_cases h : isDraw c.name = true
      · rw [if_pos h] at h1
        simp at h1
        subst h1
        exact h
      · rw [if_neg h] at h1
        cases h1
    · obtain ⟨q, hq, hpq⟩ := List.mem_map.mp h1
      subst hpq
      exact ih q hq

/-- C7 (amended): every draw record's framebuffer id equals the target of
the most recent preceding bind event (with an absent or empty bind target
resolving to the default id), or the pre-registered default id "0" when no
bind event precedes the draw. -/
theorem C7_fbo_resolution (events : List Chunk) :
    (extract_draws_with_state events).map (fun r => r.fbo_id) =
      (drawPreLists events).map specLastBoundFbo := by
  unfold extract_draws_with_state run_extraction
  rw [extract_fold_records events ExtractState.init [], List.nil_append,
    siteRecords_map_fbo]
  unfold drawPreLists
  rw [List.map_map]
  apply list_map_congr_mem
  intro pc hpc
  have hd := drawSites_isDraw events pc hpc
  rw [stepTrackers_draw _ _ hd, stateAfter_current_fbo]
  rfl

/-- C8 (amended): every draw record's bound-textures list is exactly the
extractor's per-unit binding array at that point with empty slots
filtered out — hence ordered by ascending texture unit, but with duplicate
ids retained when one texture is bound to several units. -/
theorem C8_bound_textures (events : List Chunk) :
    (extract_draws_with_state events).map (fun r => r.bound_textures) =
      (drawPreLists events).map
        (fun p => (stateAfter ExtractState.init p).bound_textures.filter
          (fun t => t != "")) := by
  unfold extract_draws_with_state run_extraction
  rw [extract_fold_records events ExtractState.init [], List.nil_append,
    siteRecords_map_bound]
  unfold drawPreLists
  rw [List.map_map]
  apply list_map_congr_mem
  intro pc hpc
  have hd := drawSites_isDraw events pc hpc
  rw [stepTrackers_draw _ _ hd]
  rfl
